import Mathlib

/-!
Verification of the schema-to-dataset generation engine of the
AI-Powered Test Strategist repository (`data_factory.py` and
`test_strategist.py`), as a shallow embedding in Lean 4.

Modelling conventions:
* Randomness (`random.choice`, the `faker` producers) is modelled as an
  oracle: each primitive reads the oracle cell addressed by the current
  row index `i` and field index `j`, so distinct (row, field) positions
  read independent draws.  The distribution of each draw (uniform for
  `random.choice`) is the `random` library's contract and is carried by
  the oracle abstraction.
* The generative-text service (`model.generate_content(...).text`) is an
  opaque function `String → Except Unit String`; a Python exception is
  the `error` case.
* Python `json.loads` is an opaque function `String → Except Unit PyVal`
  (`PyVal` is the JSON-shaped Python value universe); the exact prompt
  strings fed to the opaque service are built by concatenation, with
  string escaping and `json.dumps` indentation not modelled (they only
  affect opaque service input).
* Fallible Python operations (subscript on a missing key, iteration of a
  non-iterable, `int(...)` on a non-integer string, and calling a stored
  generator function with the wrong number of arguments — the TypeError
  raised when the zero-argument `ai_text` negative lambda is handed the
  prompt) return `Except Unit`.
-/

/-! ## data_factory.py -/

/-- A generated cell value: Python strings, ints, and the one float
literal `999.9` occurring in the negative-integer generator (kept as its
source text, since nothing ever computes with it). -/
inductive Value where
  | str (s : String)
  | int (n : Int)
  | floatLit (s : String)
deriving Repr, DecidableEq

/-- The faker/random primitives used by `TYPE_GENERATORS`, modelled as
oracles indexed by the (row, field) position at which the call happens,
plus the Gemini configuration state read by `generate_ai_content`. -/
structure FakerEnv where
  fakeName : Nat → Nat → String
  fakeSafeEmail : Nat → Nat → String
  fakePassword : Nat → Nat → String
  fakeRandomInt : Nat → Nat → Int
  fakeDate : Nat → Nat → String
  fakeUuid : Nat → Nat → String
  /-- draw for `random.choice` inside a negative generator (index into the alternatives). -/
  negChoice : Nat → Nat → Nat
  /-- draw for `random.choice(["positive", "negative"])` under the mixed policy;
  `true` selects `"positive"`. -/
  mixedDraw : Nat → Nat → Bool
  /-- the module-level `gemini_enabled` flag, decided once at import. -/
  geminiEnabled : Bool
  /-- `model.generate_content(prompt).text` for the `ai_text` type. -/
  aiService : Nat → Nat → String → Except Unit String

/-- Python `str.strip()`: drop whitespace from both ends (implemented
over the character list so that concrete instances evaluate). -/
def pyStrip (s : String) : String :=
  String.mk (((s.data.dropWhile Char.isWhitespace).reverse.dropWhile
    Char.isWhitespace).reverse)

/-- `generate_ai_content(prompt)`: returns `"AI_DISABLED"` when Gemini is
not configured, the stripped service text on success, and
`"AI_GENERATION_ERROR"` when the service raises (the bare `except`). -/
def generate_ai_content (enabled : Bool) (svc : String → Except Unit String)
    (prompt : String) : String :=
  if enabled then
    match svc prompt with
    | .ok t => pyStrip t
    | .error _ => "AI_GENERATION_ERROR"
  else "AI_DISABLED"

/-- Which entry of the `TYPE_GENERATORS` dict-of-dicts a (type, case) pair
holds: one constructor per stored function value. -/
inductive GenSpec where
  | namePos | nameNeg | emailPos | emailNeg | passwordPos | passwordNeg
  | integerPos | integerNeg | datePos | dateNeg | uuidPos | uuidNeg
  | aiTextPos | aiTextNeg
deriving Repr, DecidableEq

/-- The `TYPE_GENERATORS` dict of dicts: each type name maps to its
per-case dict of stored function values (a `GenSpec` names each stored
function). -/
def TYPE_GENERATORS_table : List (String × List (String × GenSpec)) :=
  [("name", [("positive", .namePos), ("negative", .nameNeg)]),
   ("email", [("positive", .emailPos), ("negative", .emailNeg)]),
   ("password", [("positive", .passwordPos), ("negative", .passwordNeg)]),
   ("integer", [("positive", .integerPos), ("negative", .integerNeg)]),
   ("date", [("positive", .datePos), ("negative", .dateNeg)]),
   ("uuid", [("positive", .uuidPos), ("negative", .uuidNeg)]),
   ("ai_text", [("positive", .aiTextPos), ("negative", .aiTextNeg)])]

/-- `TYPE_GENERATORS.get(field_type, {}).get(current_case)`: the
two-level dict lookup, `none` on a miss (unknown type, unknown case, or
a missing `type` key, in which case Python's `field_type` is `None` and
not a dict key). -/
def TYPE_GENERATORS (ft : Option String) (c : String) : Option GenSpec :=
  match ft with
  | none => none
  | some ty => ((TYPE_GENERATORS_table.lookup ty).getD []).lookup c

/-- The value a generator function's BODY produces when it runs, at
oracle position (i, j).  For `.aiTextNeg` this is the string the
zero-argument lambda would return — but the call site passes that lambda
a prompt and so never actually runs it; see `callGen`. -/
def runGen (env : FakerEnv) (i j : Nat) (prompt : String) : GenSpec → Value
  | .namePos => .str (env.fakeName i j)
  | .nameNeg =>
      match env.negChoice i j % 3 with
      | 0 => .str ""
      | 1 => .str "Name123"
      | _ => .str (String.mk (List.replicate 201 'A'))
  | .emailPos => .str (env.fakeSafeEmail i j)
  | .emailNeg => .str "not-an-email"
  | .passwordPos => .str (env.fakePassword i j)
  | .passwordNeg => .str "123"
  | .integerPos => .int (env.fakeRandomInt i j)
  | .integerNeg =>
      match env.negChoice i j % 3 with
      | 0 => .int (-1)
      | 1 => .floatLit "999.9"
      | _ => .str "abc"
  | .datePos => .str (env.fakeDate i j)
  | .dateNeg => .str "2025-99-99"
  | .uuidPos => .str (env.fakeUuid i j)
  | .uuidNeg => .str "not-a-uuid"
  | .aiTextPos => .str (generate_ai_content env.geminiEnabled (env.aiService i j) prompt)
  | .aiTextNeg => .str "INVALID_AI_PROMPT"

/-- Which stored generator functions take the context prompt as an
argument: only `generate_ai_content` does; every other entry, including
the `ai_text` NEGATIVE entry, is a zero-argument lambda or faker
method. -/
def genTakesPrompt : GenSpec → Bool
  | .aiTextPos => true
  | _ => false

/-- Calling a stored generator the way the call site does: `arg` is
`some prompt` for `generator_func(prompt)` (the `field_type == 'ai_text'`
branch) and `none` for `generator_func()`.  Calling a function with the
wrong number of arguments is Python's TypeError, modelled as `error`;
this happens exactly when the `ai_text` negative entry (a zero-argument
lambda) is handed the prompt. -/
def callGen (env : FakerEnv) (i j : Nat) (arg : Option String) (g : GenSpec) :
    Except Unit Value :=
  match arg, genTakesPrompt g with
  | some prompt, true => .ok (runGen env i j prompt g)
  | none, false => .ok (runGen env i j "" g)
  | _, _ => .error ()

/-- One field's configuration dict: `field_config.get('type')` and
`field_config.get('prompt')`, each possibly absent. -/
structure FieldConfig where
  ftype : Option String
  fprompt : Option String
deriving Repr, DecidableEq

/-- A schema: the `'fields'` entry, an insertion-ordered dict
`field_name -> field_config`. -/
structure Schema where
  fields : List (String × FieldConfig)

/-- Python rendering of `field_type` inside the sentinel f-string
(`None` prints as `"None"`). -/
def pyShow : Option String → String
  | some t => t
  | none => "None"

/-- The per-field body of `generate_data`'s inner loop: resolve the case
(drawing at (i, j) under `'mixed'`), look the generator up, call it with
a prompt when and only when the field type is `ai_text`, and fall back
to the `NO_GENERATOR_FOR_<type>_<case>` sentinel on a lookup miss.  The
`error` outcome is the uncaught TypeError raised when the `ai_text`
negative lambda is called with the prompt. -/
def resolveCase (env : FakerEnv) (test_type : String) (i j : Nat) : String :=
  if test_type ≠ "mixed" then test_type
  else if env.mixedDraw i j then "positive" else "negative"

def fieldValue (env : FakerEnv) (test_type : String) (i j : Nat)
    (cfg : FieldConfig) : Except Unit Value :=
  match TYPE_GENERATORS cfg.ftype (resolveCase env test_type i j) with
  | some g =>
      if cfg.ftype = some "ai_text" then
        callGen env i j (some (cfg.fprompt.getD "generate random text")) g
      else
        callGen env i j none g
  | none =>
      .ok (.str ("NO_GENERATOR_FOR_" ++ pyShow cfg.ftype ++ "_" ++
        resolveCase env test_type i j))

/-- The inner `for field_name, field_config in fields.items()` loop,
building one record; `j` is the position of the field in the schema.  An
uncaught exception at any field aborts the whole generation. -/
def genFields (env : FakerEnv) (test_type : String) (i : Nat) (j : Nat) :
    List (String × FieldConfig) → Except Unit (List (String × Value))
  | [] => .ok []
  | (nm, cfg) :: rest =>
      match fieldValue env test_type i j cfg with
      | .error e => .error e
      | .ok v =>
          match genFields env test_type i (j + 1) rest with
          | .error e => .error e
          | .ok vs => .ok ((nm, v) :: vs)

/-- One iteration of the outer loop: the record for row `i`. -/
def generateRecord (env : FakerEnv) (fields : List (String × FieldConfig))
    (test_type : String) (i : Nat) : Except Unit (List (String × Value)) :=
  genFields env test_type i 0 fields

/-- The outer `for i in range(num_rows)` loop: `k` rows remain, the next
row index is `i`. -/
def genRows (env : FakerEnv) (fields : List (String × FieldConfig))
    (test_type : String) : Nat → Nat → Except Unit (List (List (String × Value)))
  | 0, _ => .ok []
  | k + 1, i =>
      match generateRecord env fields test_type i with
      | .error e => .error e
      | .ok r =>
          match genRows env fields test_type k (i + 1) with
          | .error e => .error e
          | .ok rs => .ok (r :: rs)

/-- `generate_data(schema, num_rows, test_type)`: one record per row,
each record mapping every schema field, in schema order, to a generated
value (sentinel on generator miss).  `error` is an uncaught exception —
reachable, since an `ai_text` field whose resolved case is negative
raises a TypeError (`callGen`) with no `try` anywhere in the loop. -/
def generate_data (env : FakerEnv) (schema : Schema) (num_rows : Nat)
    (test_type : String) : Except Unit (List (List (String × Value))) :=
  genRows env schema.fields test_type num_rows 0

/-! ### Basic lemmas about `generate_data` -/

theorem genFields_keys_of_ok (env : FakerEnv) (t : String) (i : Nat) :
    ∀ (fs : List (String × FieldConfig)) (j0 : Nat) (r : List (String × Value)),
      genFields env t i j0 fs = .ok r → r.map Prod.fst = fs.map Prod.fst := by
  intro fs
  induction fs with
  | nil =>
      intro j0 r h
      simp only [genFields, Except.ok.injEq] at h
      subst h
      rfl
  | cons hd tl ih =>
      intro j0 r h
      obtain ⟨nm, cfg⟩ := hd
      cases hv : fieldValue env t i j0 cfg with
      | error e => simp [genFields, hv] at h
      | ok v =>
          cases hrest : genFields env t i (j0 + 1) tl with
          | error e => simp [genFields, hv, hrest] at h
          | ok vs =>
              simp only [genFields, hv, hrest, Except.ok.injEq] at h
              subst h
              simp [ih (j0 + 1) vs hrest]

theorem genFields_get?_of_ok (env : FakerEnv) (t : String) (i : Nat) :
    ∀ (fs : List (String × FieldConfig)) (j0 j : Nat) (r : List (String × Value))
      (nm : String) (cfg : FieldConfig),
      genFields env t i j0 fs = .ok r → fs[j]? = some (nm, cfg) →
      ∃ v, r[j]? = some (nm, v) ∧ fieldValue env t i (j0 + j) cfg = .ok v := by
  intro fs
  induction fs with
  | nil => intro j0 j r nm cfg _ hj; simp at hj
  | cons hd tl ih =>
      intro j0 j r nm cfg h hj
      obtain ⟨nm0, cfg0⟩ := hd
      cases hv : fieldValue env t i j0 cfg0 with
      | error e => simp [genFields, hv] at h
      | ok v0 =>
          cases hrest : genFields env t i (j0 + 1) tl with
          | error e => simp [genFields, hv, hrest] at h
          | ok vs =>
              simp only [genFields, hv, hrest, Except.ok.injEq] at h
              subst h
              cases j with
              | zero =>
                  simp only [List.getElem?_cons_zero, Option.some.injEq] at hj
                  obtain ⟨rfl, rfl⟩ : nm0 = nm ∧ cfg0 = cfg := by
                    simpa using hj
                  exact ⟨v0, by simp, by simpa using hv⟩
              | succ j =>
                  simp only [List.getElem?_cons_succ] at hj
                  obtain ⟨v, hv1, hv2⟩ := ih (j0 + 1) j vs nm cfg hrest hj
                  refine ⟨v, by simpa using hv1, ?_⟩
                  have harith : j0 + 1 + j = j0 + (j + 1) := by omega
                  rwa [harith] at hv2

theorem genRows_length_of_ok (env : FakerEnv) (fs : List (String × FieldConfig))
    (t : String) :
    ∀ (k i0 : Nat) (rows : List (List (String × Value))),
      genRows env fs t k i0 = .ok rows → rows.length = k := by
  intro k
  induction k with
  | zero =>
      intro i0 rows h
      simp only [genRows, Except.ok.injEq] at h
      subst h
      rfl
  | succ k ih =>
      intro i0 rows h
      cases hr : generateRecord env fs t i0 with
      | error e => simp [genRows, hr] at h
      | ok r =>
          cases hrest : genRows env fs t k (i0 + 1) with
          | error e => simp [genRows, hr, hrest] at h
          | ok rs =>
              simp only [genRows, hr, hrest, Except.ok.injEq] at h
              subst h
              simp [ih (i0 + 1) rs hrest]

theorem genRows_get?_of_ok (env : FakerEnv) (fs : List (String × FieldConfig))
    (t : String) :
    ∀ (k i0 i : Nat) (rows : List (List (String × Value))),
      genRows env fs t k i0 = .ok rows → i < k →
      ∃ r, rows[i]? = some r ∧ generateRecord env fs t (i0 + i) = .ok r := by
  intro k
  induction k with
  | zero => intro i0 i rows _ hi; omega
  | succ k ih =>
      intro i0 i rows h hi
      cases hr : generateRecord env fs t i0 with
      | error e => simp [genRows, hr] at h
      | ok r =>
          cases hrest : genRows env fs t k (i0 + 1) with
          | error e => simp [genRows, hr, hrest] at h
          | ok rs =>
              simp only [genRows, hr, hrest, Except.ok.injEq] at h
              subst h
              cases i with
              | zero => exact ⟨r, by simp, by simpa using hr⟩
              | succ i =>
                  obtain ⟨r2, h1, h2⟩ := ih (i0 + 1) i rs hrest (by omega)
                  refine ⟨r2, by simpa using h1, ?_⟩
                  have harith : i0 + 1 + i = i0 + (i + 1) := by omega
                  rwa [harith] at h2

theorem genRows_mem_of_ok (env : FakerEnv) (fs : List (String × FieldConfig))
    (t : String) :
    ∀ (k i0 : Nat) (rows : List (List (String × Value))),
      genRows env fs t k i0 = .ok rows →
      ∀ r ∈ rows, ∃ i, generateRecord env fs t i = .ok r := by
  intro k
  induction k with
  | zero =>
      intro i0 rows h r hr
      simp only [genRows, Except.ok.injEq] at h
      subst h
      simp at hr
  | succ k ih =>
      intro i0 rows h r hr
      cases hrec : generateRecord env fs t i0 with
      | error e => simp [genRows, hrec] at h
      | ok r0 =>
          cases hrest : genRows env fs t k (i0 + 1) with
          | error e => simp [genRows, hrec, hrest] at h
          | ok rs =>
              simp only [genRows, hrec, hrest, Except.ok.injEq] at h
              subst h
              rcases List.mem_cons.mp hr with rfl | hmem
              · exact ⟨i0, hrec⟩
              · exact ih (i0 + 1) rs hrest r hmem

theorem lookup_mem_pair {β : Type} (k : String) (v : β) :
    ∀ (l : List (String × β)), l.lookup k = some v → (k, v) ∈ l := by
  intro l
  induction l with
  | nil => intro h; simp [List.lookup] at h
  | cons hd tl ih =>
      intro h
      cases hkk : (k == hd.1) with
      | true =>
          rw [List.lookup, hkk] at h
          obtain ⟨a, b⟩ := hd
          have h1 : k = a := beq_iff_eq.mp hkk
          have h2 : b = v := by simpa using h
          subst h1
          subst h2
          exact List.mem_cons_self _ _
      | false =>
          rw [List.lookup, hkk] at h
          exact List.mem_cons_of_mem _ (ih h)

theorem resolveCase_fixed (env : FakerEnv) (t : String) (ht : t ≠ "mixed") (i j : Nat) :
    resolveCase env t i j = t := by
  simp [resolveCase, ht]

theorem TYPE_GENERATORS_prompt (ft : Option String) (c : String) (g : GenSpec)
    (h : TYPE_GENERATORS ft c = some g) (hp : genTakesPrompt g = true) :
    ft = some "ai_text" ∧ c = "positive" := by
  have hg : g = GenSpec.aiTextPos := by
    cases g <;> first | rfl | simp [genTakesPrompt] at hp
  subst hg
  cases ft with
  | none => simp [TYPE_GENERATORS] at h
  | some ty =>
      simp only [TYPE_GENERATORS] at h
      cases hl : TYPE_GENERATORS_table.lookup ty with
      | none => rw [hl] at h; simp at h
      | some inner =>
          rw [hl] at h
          simp only [Option.getD_some] at h
          have hcmem := lookup_mem_pair c GenSpec.aiTextPos inner h
          have htymem := lookup_mem_pair ty inner TYPE_GENERATORS_table hl
          simp only [TYPE_GENERATORS_table, List.mem_cons, List.not_mem_nil, or_false,
            Prod.mk.injEq] at htymem
          rcases htymem with ⟨rfl, rfl⟩ | ⟨rfl, rfl⟩ | ⟨rfl, rfl⟩ | ⟨rfl, rfl⟩ |
            ⟨rfl, rfl⟩ | ⟨rfl, rfl⟩ | ⟨rfl, rfl⟩ <;>
            simp_all

/-- A field whose type is not `ai_text` never hits the TypeError, and an
`ai_text` field is safe under the fixed positive case: its generator
takes the prompt it is given. -/
theorem fieldValue_ok_of_safe (env : FakerEnv) (t : String) (i j : Nat)
    (cfg : FieldConfig) (hsafe : cfg.ftype = some "ai_text" → t = "positive") :
    ∃ v, fieldValue env t i j cfg = .ok v := by
  by_cases hai : cfg.ftype = some "ai_text"
  · have ht := hsafe hai
    subst ht
    obtain ⟨ft, pr⟩ := cfg
    simp only at hai
    subst hai
    exact ⟨_, rfl⟩
  · cases hg : TYPE_GENERATORS cfg.ftype (resolveCase env t i j) with
    | none =>
        refine ⟨.str ("NO_GENERATOR_FOR_" ++ pyShow cfg.ftype ++ "_" ++
          resolveCase env t i j), ?_⟩
        simp [fieldValue, hg]
    | some g =>
        have htp : genTakesPrompt g = false := by
          cases htpb : genTakesPrompt g with
          | false => rfl
          | true => exact absurd (TYPE_GENERATORS_prompt _ _ g hg htpb).1 hai
        refine ⟨runGen env i j "" g, ?_⟩
        simp [fieldValue, hg, hai, callGen, htp]

theorem genFields_ok_of_safe (env : FakerEnv) (t : String) (i : Nat) :
    ∀ (fs : List (String × FieldConfig)) (j0 : Nat),
      (∀ p ∈ fs, p.2.ftype = some "ai_text" → t = "positive") →
      ∃ r, genFields env t i j0 fs = .ok r := by
  intro fs
  induction fs with
  | nil => intro j0 _; exact ⟨[], rfl⟩
  | cons hd tl ih =>
      intro j0 h
      obtain ⟨nm, cfg⟩ := hd
      obtain ⟨v, hv⟩ := fieldValue_ok_of_safe env t i j0 cfg
        (h (nm, cfg) (List.mem_cons_self _ _))
      obtain ⟨r, hr⟩ := ih (j0 + 1) (fun p hp => h p (List.mem_cons_of_mem _ hp))
      exact ⟨(nm, v) :: r, by simp [genFields, hv, hr]⟩

theorem genRows_ok_of_safe (env : FakerEnv) (fs : List (String × FieldConfig))
    (t : String)
    (hsafe : ∀ p ∈ fs, p.2.ftype = some "ai_text" → t = "positive") :
    ∀ (k i0 : Nat), ∃ rows, genRows env fs t k i0 = .ok rows := by
  intro k
  induction k with
  | zero => intro i0; exact ⟨[], rfl⟩
  | succ k ih =>
      intro i0
      obtain ⟨r, hr⟩ := genFields_ok_of_safe env t i0 fs 0 hsafe
      obtain ⟨rows, hrows⟩ := ih (i0 + 1)
      exact ⟨r :: rows, by simp [genRows, generateRecord, hr, hrows]⟩

theorem fieldValue_no_gen (env : FakerEnv) (t : String) (ht : t ≠ "mixed")
    (i j : Nat) (cfg : FieldConfig) (ty : String) (hty : cfg.ftype = some ty)
    (hnone : TYPE_GENERATORS (some ty) t = none) :
    fieldValue env t i j cfg = .ok (.str ("NO_GENERATOR_FOR_" ++ ty ++ "_" ++ t)) := by
  simp [fieldValue, resolveCase_fixed env t ht i j, hty, hnone, pyShow]

/-- A concrete oracle environment, used to instantiate witnesses. -/
def cFakerEnv : FakerEnv where
  fakeName := fun _ _ => "Asha Rao"
  fakeSafeEmail := fun _ _ => "asha@example.org"
  fakePassword := fun _ _ => "p4ssw0rd9012"
  fakeRandomInt := fun _ _ => 7
  fakeDate := fun _ _ => "2024-01-01"
  fakeUuid := fun _ _ => "00000000-0000-4000-8000-000000000000"
  negChoice := fun _ _ => 0
  mixedDraw := fun i j => (i + j) % 2 == 0
  geminiEnabled := false
  aiService := fun _ _ _ => .ok "generated text"

/-- A concrete three-field schema (a known faker type, an `ai_text`
field, and an unknown type), used to instantiate witnesses. -/
def cSchema : Schema :=
  ⟨[("username", ⟨some "name", none⟩),
    ("bio", ⟨some "ai_text", some "a short user bio"⟩),
    ("misc", ⟨some "foo", none⟩)]⟩

/-- A one-field schema with only an `ai_text` field. -/
def cAiSchema1 : Schema := ⟨[("bio", ⟨some "ai_text", some "a short user bio"⟩)]⟩

/-- C1 (amended): for every schema, N > 0 and case policy under which no
`ai_text` field resolves to the negative case (no `ai_text` field at
all, or the fixed Positive policy), `generate_data` returns a dataset of
exactly N records, each containing exactly the schema's field names in
schema order.  Without that proviso generation can abort with the
`ai_text` TypeError instead (see the counterexample). -/
theorem c1_generate_row_count_and_fields (env : FakerEnv) (schema : Schema)
    (N : Nat) (t : String) (_hN : 0 < N)
    (hsafe : ∀ p ∈ schema.fields, p.2.ftype = some "ai_text" → t = "positive") :
    ∃ rows, generate_data env schema N t = .ok rows ∧ rows.length = N ∧
      ∀ r ∈ rows, r.map Prod.fst = schema.fields.map Prod.fst := by
  obtain ⟨rows, hrows⟩ := genRows_ok_of_safe env schema.fields t hsafe N 0
  refine ⟨rows, hrows, genRows_length_of_ok env schema.fields t N 0 rows hrows, ?_⟩
  intro r hr
  obtain ⟨i, hi⟩ := genRows_mem_of_ok env schema.fields t N 0 rows hrows r hr
  exact genFields_keys_of_ok env t i schema.fields 0 r hi

/-- C1 counterexample: a schema with an `ai_text` field under the
Negative policy makes `generate_data` raise the TypeError (the niladic
negative lambda called with the prompt) instead of returning the
requested 1-record dataset. -/
theorem c1_counterexample :
    generate_data cFakerEnv cAiSchema1 1 "negative" = .error () ∧
    ∀ rows, generate_data cFakerEnv cAiSchema1 1 "negative" ≠ .ok rows :=
  ⟨rfl, fun _ h => Except.noConfusion h⟩

theorem c1_witness :
    0 < 2 ∧
    ∃ rows, generate_data cFakerEnv cSchema 2 "positive" = .ok rows ∧
      rows.length = 2 ∧ ∀ r ∈ rows, r.map Prod.fst = cSchema.fields.map Prod.fst :=
  ⟨by decide,
   c1_generate_row_count_and_fields cFakerEnv cSchema 2 "positive" (by decide)
     (fun p _ _ => rfl)⟩

/-- A two-field schema whose second field is `ai_text`. -/
def cAiSchema2 : Schema :=
  ⟨[("username", ⟨some "name", none⟩),
    ("bio", ⟨some "ai_text", some "a short user bio"⟩)]⟩

/-- C2: the code evaluated at the failing input.  The `ai_text` negative
entry exists in `TYPE_GENERATORS` and its body would return the
documented sentinel `INVALID_AI_PROMPT`, but the entry takes no prompt
while the `ai_text` call site always passes one, so generation under the
Negative case raises a TypeError and produces no dataset — the code
contradicts its own generator table (and the spec's never-raise
contract). -/
theorem c2_ai_text_negative_raises :
    generate_data cFakerEnv cAiSchema2 2 "negative" = .error () ∧
    TYPE_GENERATORS (some "ai_text") "negative" = some GenSpec.aiTextNeg ∧
    genTakesPrompt GenSpec.aiTextNeg = false ∧
    runGen cFakerEnv 0 1 "a short user bio" GenSpec.aiTextNeg =
      Value.str "INVALID_AI_PROMPT" :=
  ⟨rfl, rfl, rfl, rfl⟩

/-- C3 (amended): a field whose (type, selected case) pair has no entry
in `TYPE_GENERATORS` is given the sentinel string
`NO_GENERATOR_FOR_<type>_<case>` in every row of the full returned
dataset, provided no `ai_text` field of the schema resolves to the
negative case (always true under the claim's Positive example); with an
`ai_text` field under Negative the generation aborts first (see the
counterexample). -/
theorem c3_missing_generator_sentinel (env : FakerEnv) (schema : Schema)
    (N : Nat) (t : String) (ht : t ≠ "mixed")
    (hsafe : ∀ p ∈ schema.fields, p.2.ftype = some "ai_text" → t = "positive") :
    ∀ (i j : Nat) (nm : String) (cfg : FieldConfig) (ty : String),
      i < N → schema.fields[j]? = some (nm, cfg) → cfg.ftype = some ty →
      TYPE_GENERATORS (some ty) t = none →
      ∃ rows r, generate_data env schema N t = .ok rows ∧ rows[i]? = some r ∧
        r[j]? = some (nm, Value.str ("NO_GENERATOR_FOR_" ++ ty ++ "_" ++ t)) := by
  intro i j nm cfg ty hi hj hty hnone
  obtain ⟨rows, hrows⟩ := genRows_ok_of_safe env schema.fields t hsafe N 0
  obtain ⟨r, hr1, hr2⟩ := genRows_get?_of_ok env schema.fields t N 0 i rows hrows hi
  rw [Nat.zero_add] at hr2
  obtain ⟨v, hv1, hv2⟩ := genFields_get?_of_ok env t i schema.fields 0 j r nm cfg hr2 hj
  rw [Nat.zero_add] at hv2
  rw [fieldValue_no_gen env t ht i j cfg ty hty hnone] at hv2
  obtain rfl : Value.str ("NO_GENERATOR_FOR_" ++ ty ++ "_" ++ t) = v := by
    simpa using hv2
  exact ⟨rows, r, hrows, hr1, hv1⟩

/-- A schema pairing an unknown-type field with an `ai_text` field. -/
def cMixedSchema3 : Schema :=
  ⟨[("misc", ⟨some "foo", none⟩),
    ("bio", ⟨some "ai_text", some "a short user bio"⟩)]⟩

/-- C3 counterexample: the field `misc` has no registered generator for
the selected Negative case, yet `generate_data` raises (the `ai_text`
TypeError) instead of substituting the sentinel in every row — no row is
produced at all. -/
theorem c3_counterexample :
    TYPE_GENERATORS (some "foo") "negative" = none ∧
    generate_data cFakerEnv cMixedSchema3 1 "negative" = .error () ∧
    ∀ rows, generate_data cFakerEnv cMixedSchema3 1 "negative" ≠ .ok rows :=
  ⟨rfl, rfl, fun _ h => Except.noConfusion h⟩

theorem c3_witness :
    ∃ rows r, generate_data cFakerEnv cSchema 2 "positive" = .ok rows ∧
      rows[0]? = some r ∧
      r[2]? = some ("misc", Value.str "NO_GENERATOR_FOR_foo_positive") := by
  have h := c3_missing_generator_sentinel cFakerEnv cSchema 2 "positive" (by decide)
    (fun p _ _ => rfl) 0 2 "misc" ⟨some "foo", none⟩ "foo" (by decide) (by decide)
    rfl rfl
  exact h

theorem runGen_update_mixedDraw (env : FakerEnv) (d : Nat → Nat → Bool)
    (i j : Nat) (p : String) (g : GenSpec) :
    runGen { env with mixedDraw := d } i j p g = runGen env i j p g := by
  cases g <;> rfl

theorem callGen_update_mixedDraw (env : FakerEnv) (d : Nat → Nat → Bool)
    (i j : Nat) (arg : Option String) (g : GenSpec) :
    callGen { env with mixedDraw := d } i j arg g = callGen env i j arg g := by
  cases arg <;> cases hg : genTakesPrompt g <;>
    simp [callGen, hg, runGen_update_mixedDraw]

theorem resolveCase_update_mixedDraw (env : FakerEnv) (d : Nat → Nat → Bool)
    (t : String) (ht : t ≠ "mixed") (i j : Nat) :
    resolveCase { env with mixedDraw := d } t i j = resolveCase env t i j := by
  simp [resolveCase, ht]

theorem fieldValue_update_mixedDraw (env : FakerEnv) (d : Nat → Nat → Bool)
    (t : String) (ht : t ≠ "mixed") (i j : Nat) (cfg : FieldConfig) :
    fieldValue { env with mixedDraw := d } t i j cfg = fieldValue env t i j cfg := by
  simp only [fieldValue, resolveCase_update_mixedDraw env d t ht i j,
    callGen_update_mixedDraw]

theorem resolveCase_mixed (env : FakerEnv) (i j : Nat) :
    resolveCase env "mixed" i j =
      resolveCase env (if env.mixedDraw i j then "positive" else "negative") i j := by
  by_cases h : env.mixedDraw i j <;> simp [resolveCase, h]

theorem fieldValue_mixed (env : FakerEnv) (i j : Nat) (cfg : FieldConfig) :
    fieldValue env "mixed" i j cfg =
      fieldValue env (if env.mixedDraw i j then "positive" else "negative") i j cfg := by
  simp only [fieldValue, resolveCase_mixed env i j]

/-- C4 (amended): under a fixed (non-mixed) policy the mixed-draw oracle
is never consulted and every field outcome is that case's generator
call; under the `"mixed"` policy the per-field outcome at row i, field j
— the drawn-case value, or the `ai_text` TypeError when the draw lands
on negative — is exactly the fixed-case outcome for the case drawn
independently at position (i, j) (`random.choice` over the two cases,
uniform by the `random` library's contract, modelled as the `mixedDraw`
oracle); in particular, whenever the mixed dataset is produced, each
record's field j holds the value of the case drawn at (i, j). -/
theorem c4_case_policy (env : FakerEnv) (schema : Schema) (N : Nat) :
    (∀ t, t ≠ "mixed" → ∀ d,
      generate_data { env with mixedDraw := d } schema N t =
        generate_data env schema N t) ∧
    (∀ (i j : Nat) (cfg : FieldConfig),
      fieldValue env "mixed" i j cfg =
        fieldValue env (if env.mixedDraw i j then "positive" else "negative") i j cfg) ∧
    (∀ (rows : List (List (String × Value))) (i j : Nat) (nm : String)
       (cfg : FieldConfig),
      generate_data env schema N "mixed" = .ok rows → i < N →
      schema.fields[j]? = some (nm, cfg) →
      ∃ r v, rows[i]? = some r ∧ r[j]? = some (nm, v) ∧
        fieldValue env (if env.mixedDraw i j then "positive" else "negative")
          i j cfg = .ok v) := by
  refine ⟨?_, fieldValue_mixed env, ?_⟩
  · intro t ht d
    have hgf : ∀ (i j0 : Nat) (fs : List (String × FieldConfig)),
        genFields { env with mixedDraw := d } t i j0 fs = genFields env t i j0 fs := by
      intro i j0 fs
      induction fs generalizing j0 with
      | nil => rfl
      | cons hd tl ih =>
          obtain ⟨nm, cfg⟩ := hd
          simp [genFields, fieldValue_update_mixedDraw env d t ht, ih]
    have hgr : ∀ (k i0 : Nat),
        genRows { env with mixedDraw := d } schema.fields t k i0 =
          genRows env schema.fields t k i0 := by
      intro k
      induction k with
      | zero => intro i0; rfl
      | succ k ih => intro i0; simp [genRows, generateRecord, hgf, ih]
    exact hgr N 0
  · intro rows i j nm cfg hrows hi hj
    obtain ⟨r, h1, h2⟩ := genRows_get?_of_ok env schema.fields "mixed" N 0 i rows hrows hi
    rw [Nat.zero_add] at h2
    obtain ⟨v, h3, h4⟩ := genFields_get?_of_ok env "mixed" i schema.fields 0 j r nm cfg h2 hj
    rw [Nat.zero_add] at h4
    refine ⟨r, v, h1, h3, ?_⟩
    rw [← fieldValue_mixed env i j cfg]
    exact h4

/-- The concrete environment with the mixed draw always landing on the
negative case. -/
def cFakerEnvNeg : FakerEnv := { cFakerEnv with mixedDraw := fun _ _ => false }

/-- C4 counterexample: under the Mixed policy a negative draw at an
`ai_text` field raises the TypeError, so no record exists whose fields
were produced by the drawn cases' generators — generation aborts. -/
theorem c4_counterexample :
    generate_data cFakerEnvNeg cAiSchema1 1 "mixed" = .error () ∧
    ∀ rows, generate_data cFakerEnvNeg cAiSchema1 1 "mixed" ≠ .ok rows :=
  ⟨rfl, fun _ h => Except.noConfusion h⟩

/-- The concrete environment with the mixed draw always landing on the
positive case. -/
def cFakerEnvTrue : FakerEnv := { cFakerEnv with mixedDraw := fun _ _ => true }

/-- The dataset `cSchema` yields for two rows when every resolved case
is positive (the Gemini flag is off, so `ai_text` gives the disabled
sentinel, and the unknown type gives the no-generator sentinel). -/
def cRecordPositive : List (String × Value) :=
  [("username", .str "Asha Rao"), ("bio", .str "AI_DISABLED"),
   ("misc", .str "NO_GENERATOR_FOR_foo_positive")]

def cRowsPositive : List (List (String × Value)) := [cRecordPositive, cRecordPositive]

theorem c4_witness :
    generate_data { cFakerEnvTrue with mixedDraw := fun _ _ => false } cSchema 2
        "positive" =
      generate_data cFakerEnvTrue cSchema 2 "positive" ∧
    fieldValue cFakerEnvTrue "mixed" 0 0 ⟨some "name", none⟩ =
      fieldValue cFakerEnvTrue
        (if cFakerEnvTrue.mixedDraw 0 0 then "positive" else "negative") 0 0
        ⟨some "name", none⟩ ∧
    ∃ r v, cRowsPositive[0]? = some r ∧ r[0]? = some ("username", v) ∧
      fieldValue cFakerEnvTrue
        (if cFakerEnvTrue.mixedDraw 0 0 then "positive" else "negative") 0 0
        ⟨some "name", none⟩ = .ok v :=
  ⟨(c4_case_policy cFakerEnvTrue cSchema 2).1 "positive" (by decide) _,
   (c4_case_policy cFakerEnvTrue cSchema 2).2.1 0 0 ⟨some "name", none⟩,
   (c4_case_policy cFakerEnvTrue cSchema 2).2.2 cRowsPositive 0 0 "username"
     ⟨some "name", none⟩ rfl (by decide) rfl⟩

/-! ## test_strategist.py -/

/-- The universe of JSON-shaped Python values handled by the plan
pipeline (the possible results of `json.loads`, plus the values stored
into rows when tagging). -/
inductive PyVal where
  | null
  | bool (b : Bool)
  | int (n : Int)
  | str (s : String)
  | list (xs : List PyVal)
  | dict (kvs : List (String × PyVal))
deriving Inhabited

/-- Python `value[key]` subscription: dict lookup, `KeyError`/`TypeError`
modelled as `error`. -/
def PyVal.subscript (v : PyVal) (k : String) : Except Unit PyVal :=
  match v with
  | .dict kvs =>
      match kvs.lookup k with
      | some x => .ok x
      | none => .error ()
  | _ => .error ()

/-- Python `value.get(key, default)`: total on dicts, `AttributeError`
(modelled as `error`) on anything else. -/
def PyVal.getDefault (v : PyVal) (k : String) (d : PyVal) : Except Unit PyVal :=
  match v with
  | .dict kvs => .ok ((kvs.lookup k).getD d)
  | _ => .error ()

/-- Python `len(value)`: defined for strings, lists and dicts,
`TypeError` otherwise. -/
def PyVal.pyLen : PyVal → Except Unit Nat
  | .str s => .ok s.length
  | .list xs => .ok xs.length
  | .dict kvs => .ok kvs.length
  | _ => .error ()

/-- Python iteration `for x in value`: the elements of a list, the
one-character strings of a string, the keys of a dict; `TypeError` on a
non-iterable. -/
def PyVal.pyIter : PyVal → Except Unit (List PyVal)
  | .list xs => .ok xs
  | .str s => .ok (s.toList.map (fun c => .str (String.mk [c])))
  | .dict kvs => .ok (kvs.map (fun kv => .str kv.1))
  | _ => .error ()

/-- Python dict assignment `d[k] = v`: overwrite the entry at the
(unique) existing occurrence of the key, keeping its position, or append
a new entry at the end. -/
def dictSet : List (String × PyVal) → String → PyVal → List (String × PyVal)
  | [], k, v => [(k, v)]
  | (a, b) :: rest, k, v =>
      if a = k then (k, v) :: rest else (a, b) :: dictSet rest k v

/-- `response.text.strip().replace("```json", "").replace("```", "")`:
the defensive code-fence stripping applied before `json.loads`. -/
def stripFences (s : String) : String :=
  ((pyStrip s).replace "```json" "").replace "```" ""

/-- Python `int(s)` on a string: optional sign followed by digits after
stripping surrounding whitespace, `ValueError` otherwise (underscore
grouping and non-ASCII digits are not modelled; no claim depends on
them). -/
def pyDigits : List Char → Option Nat
  | [] => none
  | cs =>
      if cs.all Char.isDigit then
        some (cs.foldl (fun a c => a * 10 + (c.toNat - 48)) 0)
      else none

def pyInt (s : String) : Except Unit Int :=
  match (pyStrip s).toList with
  | '-' :: rest =>
      match pyDigits rest with
      | some n => .ok (-(n : Int))
      | none => .error ()
  | '+' :: rest =>
      match pyDigits rest with
      | some n => .ok (n : Int)
      | none => .error ()
  | cs =>
      match pyDigits cs with
      | some n => .ok (n : Int)
      | none => .error ()

/-- `json.dumps`, used only to build prompt strings for the opaque
service (string escaping and the `indent=2` layout are not modelled;
the prompts' exact text never influences a claim because the service is
universally quantified). -/
def pyDumps : PyVal → String
  | .null => "null"
  | .bool true => "true"
  | .bool false => "false"
  | .int n => toString n
  | .str s => "\x22" ++ s ++ "\x22"
  | .list xs => "[" ++ String.intercalate ", " (xs.attach.map (fun x => pyDumps x.1)) ++ "]"
  | .dict kvs =>
      "\x7b" ++
        String.intercalate ", "
          (kvs.attach.map (fun kv => "\x22" ++ kv.1.1 ++ "\x22: " ++ pyDumps kv.1.2)) ++
      "\x7d"
decreasing_by
  · simp only [PyVal.list.sizeOf_spec]
    have := List.sizeOf_lt_of_mem x.2
    omega
  · simp only [PyVal.dict.sizeOf_spec]
    have h := List.sizeOf_lt_of_mem kv.2
    have h2 : sizeOf kv.1.2 < sizeOf kv.1 := by
      obtain ⟨⟨a, b⟩, hk⟩ := kv
      simp
    omega

/-- The external Python capabilities the plan pipeline calls into: the
generative-text service (`model.generate_content(...).text`, exceptions
as `error`) and `json.loads` (a `ValueError` on unparseable text as
`error`). -/
structure PyEnv where
  gen : String → Except Unit String
  jsonLoads : String → Except Unit PyVal

/-- The prompt of `generate_test_plan` (abridged fixed text around the
embedded requirement). -/
def planPrompt (requirement : String) : String :=
  "As an expert QA Test Analyst, analyze the following user requirement and generate a structured test plan in JSON format. User Requirement: \x22" ++
    requirement ++
  "\x22 Your response MUST be a single, valid JSON object with two top-level keys: \x22fields\x22 (a list of strings) and \x22scenarios\x22 (a list of objects with keys 'scenario_name', 'test_type', and 'description'), and nothing else."

/-- The prompt of `get_ideal_row_count` (abridged fixed text around the
dumped plan). -/
def rowCountPrompt (plan : PyVal) : String :=
  "As a QA Lead, analyze the following test plan. Based on the number and variety of scenarios, determine the ideal number of test data rows to generate PER SCENARIO to achieve good test coverage without being excessive. Test Plan: " ++
    pyDumps plan ++
  " Your response MUST be a single integer and nothing else. For example: 3"

/-- The per-scenario prompt of `generate_data_for_plan` (abridged fixed
text around the row count, scenario description and dumped field list). -/
def dataPrompt (rows_per_scenario : Int) (description fields : PyVal) : String :=
  "Generate " ++ toString rows_per_scenario ++
  " unique JSON objects of test data that precisely match the following test scenario. Scenario Description: \x22" ++
    pyDumps description ++
  "\x22 Each JSON object MUST contain exactly these keys: " ++ pyDumps fields ++
  ". The values you generate for each key should be appropriate for the scenario. Your response MUST be a single, valid JSON array containing the " ++
    toString rows_per_scenario ++ " objects, and nothing else."

/-- `generate_test_plan(requirement)`: ask the service for a plan, strip
code fences, `json.loads` it, touch `len(plan['scenarios'])` (the
f-string in the success log), and return the plan; any exception inside
the `try` yields `None`. -/
def generate_test_plan (env : PyEnv) (requirement : String) : Option PyVal :=
  match env.gen (planPrompt requirement) with
  | .error _ => none
  | .ok text =>
      match env.jsonLoads (stripFences text) with
      | .error _ => none
      | .ok plan =>
          match (plan.subscript "scenarios").bind PyVal.pyLen with
          | .error _ => none
          | .ok _ => some plan

/-- `get_ideal_row_count(plan)`: `int(response.text.strip())` on
success; any exception (service failure or `ValueError` from `int`)
falls back to `3`. -/
def get_ideal_row_count (env : PyEnv) (plan : PyVal) : Int :=
  match env.gen (rowCountPrompt plan) with
  | .error _ => 3
  | .ok text =>
      match pyInt (pyStrip text) with
      | .error _ => 3
      | .ok n => n

/-- Tag one returned row in place:
`row['scenario_name'] = scenario_name; row['test_type'] = test_type`.
`TypeError` (modelled as `error`) if the element is not a dict. -/
def tagRow (name ttype : PyVal) : PyVal → Except Unit PyVal
  | .dict kvs => .ok (.dict (dictSet (dictSet kvs "scenario_name" name) "test_type" ttype))
  | _ => .error ()

/-- The `for row in generated_rows` tagging loop; an exception part-way
discards the whole scenario (the partially tagged rows are never
extended into the accumulator). -/
def tagList (name ttype : PyVal) : List PyVal → Except Unit (List PyVal)
  | [] => .ok []
  | r :: rs =>
      match tagRow name ttype r with
      | .error e => .error e
      | .ok r2 =>
          match tagList name ttype rs with
          | .error e => .error e
          | .ok rs2 => .ok (r2 :: rs2)

/-- Tagging applied to whatever `json.loads` returned (which must be
iterable, and whose every element must be a dict, for the scenario to
contribute its rows). -/
def tagAll (name ttype : PyVal) (v : PyVal) : Except Unit (List PyVal) :=
  match v.pyIter with
  | .error e => .error e
  | .ok items => tagList name ttype items

/-- The guarded (`try`) part of one scenario iteration: call the
service, strip fences, parse, tag every returned row.  Any `error` here
is absorbed by the caller (the scenario is skipped). -/
def scenarioBatch (env : PyEnv) (fields : PyVal) (rows_per_scenario : Int)
    (description name ttype : PyVal) : Except Unit (List PyVal) :=
  match env.gen (dataPrompt rows_per_scenario description fields) with
  | .error e => .error e
  | .ok text =>
      match env.jsonLoads (stripFences text) with
      | .error e => .error e
      | .ok rowsv => tagAll name ttype rowsv

/-- One iteration of the scenario loop.  The three key reads happen
before the `try` block, so their failures propagate; a `scenarioBatch`
failure only keeps the accumulator unchanged. -/
def scenarioStep (env : PyEnv) (fields : PyVal) (rows_per_scenario : Int)
    (acc : List PyVal) (scenario : PyVal) : Except Unit (List PyVal) :=
  match scenario.subscript "scenario_name" with
  | .error e => .error e
  | .ok name =>
      match scenario.subscript "description" with
      | .error e => .error e
      | .ok description =>
          match scenario.subscript "test_type" with
          | .error e => .error e
          | .ok ttype =>
              match scenarioBatch env fields rows_per_scenario description name ttype with
              | .ok tagged => .ok (acc ++ tagged)
              | .error _ => .ok acc

/-- The `for i, scenario in enumerate(plan["scenarios"])` loop over the
remaining scenarios, accumulating `all_test_data`. -/
def planFold (env : PyEnv) (fields : PyVal) (rows_per_scenario : Int)
    (acc : List PyVal) : List PyVal → Except Unit (List PyVal)
  | [] => .ok acc
  | s :: rest =>
      match scenarioStep env fields rows_per_scenario acc s with
      | .error e => .error e
      | .ok acc2 => planFold env fields rows_per_scenario acc2 rest

/-- `generate_data_for_plan(plan, rows_per_scenario)`: read
`plan.get("fields", [])` and `plan["scenarios"]` (their failures
propagate), then run the scenario loop; the result rows feed
`pd.DataFrame`. -/
def generate_data_for_plan (env : PyEnv) (plan : PyVal) (rows_per_scenario : Int) :
    Except Unit (List PyVal) :=
  match plan.getDefault "fields" (.list []) with
  | .error e => .error e
  | .ok fields =>
      match plan.subscript "scenarios" with
      | .error e => .error e
      | .ok sv =>
          match sv.pyIter with
          | .error e => .error e
          | .ok scenarios => planFold env fields rows_per_scenario [] scenarios

/-! ### The export step of `main` (pandas model) -/

/-- The keys of a row (a row produced by the plan pipeline is a dict). -/
def rowKeys : PyVal → List String
  | .dict kvs => kvs.map Prod.fst
  | _ => []

/-- The value a row holds at a column, if any. -/
def rowLookup (r : PyVal) (k : String) : Option PyVal :=
  match r with
  | .dict kvs => kvs.lookup k
  | _ => none

/-- A cell of the exported table: a present value, or pandas' NaN
placeholder for a key the row lacks. -/
inductive Cell where
  | val (v : PyVal)
  | nan

/-- The cell the exported table shows for row `r` at column `k`. -/
def dfCell (r : PyVal) (k : String) : Cell :=
  match rowLookup r k with
  | some v => .val v
  | none => .nan

/-- `pd.DataFrame(list_of_dicts)` column order: first appearance across
the rows. -/
def dfColumnsAux (acc : List String) : List PyVal → List String
  | [] => acc
  | r :: rest =>
      dfColumnsAux (acc ++ (rowKeys r).filter (fun k => !acc.contains k)) rest

def dfColumns (rows : List PyVal) : List String :=
  dfColumnsAux [] rows

/-- A DataFrame: its ordered column labels and its rows (cells are read
off with `dfCell`). -/
structure PyDataFrame where
  cols : List String
  rows : List PyVal

def pdDataFrame (rows : List PyVal) : PyDataFrame :=
  ⟨dfColumns rows, rows⟩

/-- `df[cs]` column selection; `KeyError` if a label is absent. -/
def dfSelect (df : PyDataFrame) (cs : List String) : Except Unit PyDataFrame :=
  if cs.all (fun c => df.cols.contains c) then .ok ⟨cs, df.rows⟩ else .error ()

/-- `df.drop(columns=cs)`; `KeyError` if a label is absent. -/
def dfDrop (df : PyDataFrame) (cs : List String) : Except Unit PyDataFrame :=
  if cs.all (fun c => df.cols.contains c) then
    .ok ⟨df.cols.filter (fun c => !cs.contains c), df.rows⟩
  else .error ()

/-- `cols_to_move = ['scenario_name', 'test_type']` in `main`. -/
def cols_to_move : List String := ["scenario_name", "test_type"]

/-- The two artifacts `main` derives from the one DataFrame:
`df_full = df[cols_to_move + [c for c in df.columns if c not in cols_to_move]]`
and `data_only_df = df.drop(columns=cols_to_move)`. -/
def exportFrames (df : PyDataFrame) : Except Unit (PyDataFrame × PyDataFrame) :=
  match dfSelect df (cols_to_move ++ df.cols.filter (fun c => !cols_to_move.contains c)) with
  | .error e => .error e
  | .ok dfFull =>
      match dfDrop df cols_to_move with
      | .error e => .error e
      | .ok dataOnly => .ok (dfFull, dataOnly)

/-! ### Claims C6 and C7 -/

/-- C6 (amended): plan synthesis yields the error outcome (`None`)
exactly when the service call errors, the response is not JSON-parseable
after fence stripping, or the parsed value has no `len`-measurable
`'scenarios'` entry (missing key or non-dict plan).  A parsed plan whose
scenario list is empty is returned as a successful plan, not an error. -/
theorem c6_plan_synthesis_failure_conditions (env : PyEnv) (requirement : String) :
    generate_test_plan env requirement = none ↔
      (env.gen (planPrompt requirement) = .error () ∨
        ∃ text, env.gen (planPrompt requirement) = .ok text ∧
          (env.jsonLoads (stripFences text) = .error () ∨
            ∃ plan, env.jsonLoads (stripFences text) = .ok plan ∧
              (plan.subscript "scenarios").bind PyVal.pyLen = .error ())) := by
  unfold generate_test_plan
  cases hg : env.gen (planPrompt requirement) with
  | error e => cases e; simp [hg]
  | ok text =>
      cases hj : env.jsonLoads (stripFences text) with
      | error e => cases e; simp [hg, hj]
      | ok plan =>
          cases hl : (plan.subscript "scenarios").bind PyVal.pyLen with
          | error e => cases e; simp [hg, hj, hl]
          | ok k => simp [hg, hj, hl]

/-- A service/parse pair whose parsed plan has an empty scenario list. -/
def cPlanEmpty : PyVal := .dict [("fields", .list []), ("scenarios", .list [])]

def cEnv6 : PyEnv where
  gen := fun _ => .ok "irrelevant"
  jsonLoads := fun _ => .ok cPlanEmpty

/-- C6 counterexample: a response parsing to a plan with zero scenarios
is returned as a successful plan — `generate_test_plan` does not fail on
an empty scenario list, contrary to the claim. -/
theorem c6_counterexample :
    generate_test_plan cEnv6 "any requirement" = some cPlanEmpty ∧
    cPlanEmpty.subscript "scenarios" = .ok (.list []) :=
  ⟨rfl, rfl⟩

/-- C7 (amended): the Row-Count Advisor never propagates an error — it
returns the fixed fallback `3` on any service or parse failure — but on
a successful parse it returns whatever integer the service named, which
may be any integer (including values below 1). -/
theorem c7_row_count_advisor_fallback (env : PyEnv) (plan : PyVal) :
    get_ideal_row_count env plan = 3 ∨
      ∃ text, env.gen (rowCountPrompt plan) = .ok text ∧
        pyInt (pyStrip text) = .ok (get_ideal_row_count env plan) := by
  cases hg : env.gen (rowCountPrompt plan) with
  | error e => left; simp [get_ideal_row_count, hg]
  | ok text =>
      cases hp : pyInt (pyStrip text) with
      | error e => left; simp [get_ideal_row_count, hg, hp]
      | ok n => right; exact ⟨text, rfl, by simp [get_ideal_row_count, hg, hp]⟩

def cEnv7 : PyEnv where
  gen := fun _ => .ok "0"
  jsonLoads := fun _ => .error ()

/-- C7 counterexample: when the service answers `"0"`, the advisor
returns `0`, which is not an integer ≥ 1, refuting the claim's lower
bound. -/
theorem c7_counterexample :
    get_ideal_row_count cEnv7 PyVal.null = 0 ∧
    ¬ (1 ≤ get_ideal_row_count cEnv7 PyVal.null) := by
  have h : get_ideal_row_count cEnv7 PyVal.null = 0 := rfl
  exact ⟨h, by rw [h]; decide⟩

/-! ### Claims C10 and C5: the scenario loop -/

/-- Whether a scenario dict carries the three keys that
`generate_data_for_plan` reads before its `try` block. -/
def scenarioKeysOk (s : PyVal) : Bool :=
  (match s.subscript "scenario_name" with | .ok _ => true | .error _ => false) &&
  (match s.subscript "description" with | .ok _ => true | .error _ => false) &&
  (match s.subscript "test_type" with | .ok _ => true | .error _ => false)

/-- The rows a single scenario contributes to the final dataset: its
tagged batch when the guarded block succeeds, nothing when the guarded
block fails (and nothing, vacuously, when a key read would abort). -/
def scenarioContribution (env : PyEnv) (fields : PyVal) (n : Int) (s : PyVal) :
    List PyVal :=
  match s.subscript "scenario_name" with
  | .error _ => []
  | .ok name =>
      match s.subscript "description" with
      | .error _ => []
      | .ok description =>
          match s.subscript "test_type" with
          | .error _ => []
          | .ok ttype =>
              match scenarioBatch env fields n description name ttype with
              | .ok tagged => tagged
              | .error _ => []

/-- Whether a scenario's guarded block succeeded (keys present, service
call and parse fine, every parsed row a dict). -/
def scenarioSucceeded (env : PyEnv) (fields : PyVal) (n : Int) (s : PyVal) : Bool :=
  match s.subscript "scenario_name" with
  | .error _ => false
  | .ok name =>
      match s.subscript "description" with
      | .error _ => false
      | .ok description =>
          match s.subscript "test_type" with
          | .error _ => false
          | .ok ttype =>
              match scenarioBatch env fields n description name ttype with
              | .ok _ => true
              | .error _ => false

theorem scenarioStep_ok (env : PyEnv) (fields : PyVal) (n : Int)
    (acc : List PyVal) (s : PyVal) (h : scenarioKeysOk s = true) :
    scenarioStep env fields n acc s = .ok (acc ++ scenarioContribution env fields n s) := by
  unfold scenarioKeysOk at h
  cases h1 : s.subscript "scenario_name" with
  | error e => rw [h1] at h; simp at h
  | ok name =>
      cases h2 : s.subscript "description" with
      | error e => rw [h1, h2] at h; simp at h
      | ok description =>
          cases h3 : s.subscript "test_type" with
          | error e => rw [h1, h2, h3] at h; simp at h
          | ok ttype =>
              cases hb : scenarioBatch env fields n description name ttype with
              | ok tagged => simp [scenarioStep, scenarioContribution, h1, h2, h3, hb]
              | error e => simp [scenarioStep, scenarioContribution, h1, h2, h3, hb]

theorem scenarioStep_err (env : PyEnv) (fields : PyVal) (n : Int)
    (acc : List PyVal) (s : PyVal) (h : scenarioKeysOk s = false) :
    scenarioStep env fields n acc s = .error () := by
  unfold scenarioKeysOk at h
  cases h1 : s.subscript "scenario_name" with
  | error e => cases e; simp [scenarioStep, h1]
  | ok name =>
      cases h2 : s.subscript "description" with
      | error e => cases e; simp [scenarioStep, h1, h2]
      | ok description =>
          cases h3 : s.subscript "test_type" with
          | error e => cases e; simp [scenarioStep, h1, h2, h3]
          | ok ttype => rw [h1, h2, h3] at h; simp at h

theorem planFold_ok (env : PyEnv) (fields : PyVal) (n : Int) :
    ∀ (scs : List PyVal), (∀ s ∈ scs, scenarioKeysOk s = true) →
    ∀ (acc : List PyVal),
      planFold env fields n acc scs =
        .ok (acc ++ scs.flatMap (scenarioContribution env fields n)) := by
  intro scs
  induction scs with
  | nil => intro _ acc; simp [planFold]
  | cons s rest ih =>
      intro h acc
      have hs : scenarioKeysOk s = true := h s (List.mem_cons_self s rest)
      have hrest : ∀ s ∈ rest, scenarioKeysOk s = true :=
        fun x hx => h x (List.mem_cons_of_mem s hx)
      simp only [planFold, scenarioStep_ok env fields n acc s hs]
      rw [ih hrest (acc ++ scenarioContribution env fields n s)]
      simp [List.flatMap_cons, List.append_assoc]

theorem planFold_err (env : PyEnv) (fields : PyVal) (n : Int) :
    ∀ (scs : List PyVal), (∃ s ∈ scs, scenarioKeysOk s = false) →
    ∀ (acc : List PyVal), planFold env fields n acc scs = .error () := by
  intro scs
  induction scs with
  | nil => rintro ⟨s, hs, _⟩ acc; simp at hs
  | cons s0 rest ih =>
      rintro ⟨s, hs, hbad⟩ acc
      cases hk : scenarioKeysOk s0 with
      | false => simp only [planFold, scenarioStep_err env fields n acc s0 hk]
      | true =>
          simp only [planFold, scenarioStep_ok env fields n acc s0 hk]
          rcases List.mem_cons.mp hs with rfl | hmem
          · rw [hk] at hbad; simp at hbad
          · exact ih ⟨s, hmem, hbad⟩ _

/-- C10: the three scenario keys are read before the guarded service
call, so if any scenario in the plan's list lacks `scenario_name`,
`description` or `test_type` (or is not a dict at all), the whole of
`generate_data_for_plan` aborts with an uncaught exception — even when
every other scenario would have generated fine. -/
theorem c10_missing_scenario_key_aborts (env : PyEnv) (plan : PyVal)
    (n : Int) (pkvs : List (String × PyVal)) (scs : List PyVal)
    (hplan : plan = .dict pkvs)
    (hscen : plan.subscript "scenarios" = .ok (.list scs))
    (hbad : ∃ s ∈ scs, scenarioKeysOk s = false) :
    generate_data_for_plan env plan n = .error () := by
  subst hplan
  unfold generate_data_for_plan
  rw [hscen]
  simp only [PyVal.getDefault, PyVal.pyIter]
  exact planFold_err env _ n scs hbad []

def cBadScenario : PyVal :=
  .dict [("scenario_name", .str "s2"), ("test_type", .str "negative")]

def cGoodScenario : PyVal :=
  .dict [("scenario_name", .str "s1"), ("description", .str "d1"),
         ("test_type", .str "positive")]

def cPlan10 : PyVal :=
  .dict [("fields", .list [.str "a"]),
         ("scenarios", .list [cGoodScenario, cBadScenario])]

theorem c10_witness : generate_data_for_plan cEnv6 cPlan10 3 = .error () :=
  c10_missing_scenario_key_aborts cEnv6 cPlan10 3
    [("fields", .list [.str "a"]), ("scenarios", .list [cGoodScenario, cBadScenario])]
    [cGoodScenario, cBadScenario] rfl rfl
    ⟨cBadScenario, by simp [cGoodScenario, cBadScenario], rfl⟩


/-! ### Dict-update lemmas (for the row tagging) -/

theorem dictSet_lookup_self (k : String) (v : PyVal) :
    ∀ (kvs : List (String × PyVal)), (dictSet kvs k v).lookup k = some v := by
  intro kvs
  induction kvs with
  | nil => simp [dictSet, List.lookup]
  | cons hd tl ih =>
      obtain ⟨a, b⟩ := hd
      by_cases hk : a = k
      · simp [dictSet, hk, List.lookup]
      · have hne : (k == a) = false :=
          beq_eq_false_iff_ne.mpr (fun hh => hk hh.symm)
        simp [dictSet, hk, List.lookup, hne, ih]

theorem dictSet_lookup_other (k k' : String) (v : PyVal) (hne : k' ≠ k) :
    ∀ (kvs : List (String × PyVal)), (dictSet kvs k v).lookup k' = kvs.lookup k' := by
  intro kvs
  induction kvs with
  | nil =>
      have h1 : (k' == k) = false := beq_eq_false_iff_ne.mpr hne
      simp [dictSet, List.lookup, h1]
  | cons hd tl ih =>
      obtain ⟨a, b⟩ := hd
      by_cases hk : a = k
      · have h1 : (k' == k) = false := beq_eq_false_iff_ne.mpr hne
        have h2 : (k' == a) = false := beq_eq_false_iff_ne.mpr (hk ▸ hne)
        simp [dictSet, hk, List.lookup, h1, h2]
      · cases hkk : (k' == a) with
        | true => simp [dictSet, hk, List.lookup, hkk]
        | false => simp [dictSet, hk, List.lookup, hkk, ih]

theorem lookup_some_mem_keys (k : String) (v : PyVal) :
    ∀ (kvs : List (String × PyVal)), kvs.lookup k = some v → k ∈ kvs.map Prod.fst := by
  intro kvs
  induction kvs with
  | nil => intro h; simp [List.lookup] at h
  | cons hd tl ih =>
      intro h
      cases hkk : (k == hd.1) with
      | true => simp [beq_iff_eq.mp hkk]
      | false =>
          rw [List.lookup, hkk] at h
          exact List.mem_cons_of_mem _ (ih h)

/-- The values a tagged row holds at the two provenance keys are exactly
the scenario's `scenario_name` and `test_type`. -/
theorem tagRow_lookups (name ttype r r2 : PyVal) (h : tagRow name ttype r = .ok r2) :
    rowLookup r2 "scenario_name" = some name ∧ rowLookup r2 "test_type" = some ttype := by
  cases r with
  | null => simp [tagRow] at h
  | bool b => simp [tagRow] at h
  | int n => simp [tagRow] at h
  | str s => simp [tagRow] at h
  | list xs => simp [tagRow] at h
  | dict kvs =>
      have h2 : PyVal.dict (dictSet (dictSet kvs "scenario_name" name) "test_type" ttype) = r2 := by
        simpa [tagRow] using h
      subst h2
      refine ⟨?_, ?_⟩
      · show (dictSet (dictSet kvs "scenario_name" name) "test_type" ttype).lookup
          "scenario_name" = some name
        rw [dictSet_lookup_other "test_type" "scenario_name" ttype (by decide)]
        exact dictSet_lookup_self "scenario_name" name kvs
      · exact dictSet_lookup_self "test_type" ttype _

theorem tagList_mem (name ttype : PyVal) :
    ∀ (rs rs2 : List PyVal), tagList name ttype rs = .ok rs2 →
      ∀ r2 ∈ rs2, ∃ r ∈ rs, tagRow name ttype r = .ok r2 := by
  intro rs
  induction rs with
  | nil =>
      intro rs2 h r2 hr2
      simp [tagList] at h
      subst h
      simp at hr2
  | cons r rest ih =>
      intro rs2 h r2 hr2
      cases ht : tagRow name ttype r with
      | error e => simp [tagList, ht] at h
      | ok rt =>
          cases hrest : tagList name ttype rest with
          | error e => simp [tagList, ht, hrest] at h
          | ok rs2' =>
              simp [tagList, ht, hrest] at h
              subst h
              rcases List.mem_cons.mp hr2 with rfl | hmem
              · exact ⟨r, List.mem_cons_self _ _, ht⟩
              · obtain ⟨r0, hr0, htag⟩ := ih rs2' hrest r2 hmem
                exact ⟨r0, List.mem_cons_of_mem _ hr0, htag⟩

theorem scenarioBatch_mem_tagRow (env : PyEnv) (fields : PyVal) (n : Int)
    (d name tt : PyVal) (rows : List PyVal)
    (h : scenarioBatch env fields n d name tt = .ok rows) :
    ∀ r ∈ rows, ∃ r0, tagRow name tt r0 = .ok r := by
  unfold scenarioBatch at h
  cases hg : env.gen (dataPrompt n d fields) with
  | error e => simp [hg] at h
  | ok text =>
      simp only [hg] at h
      cases hj : env.jsonLoads (stripFences text) with
      | error e => simp [hj] at h
      | ok rowsv =>
          simp only [hj] at h
          unfold tagAll at h
          cases hi : rowsv.pyIter with
          | error e => simp [hi] at h
          | ok items =>
              simp only [hi] at h
              intro r hr
              obtain ⟨r0, _, htag⟩ := tagList_mem name tt items rows h r hr
              exact ⟨r0, htag⟩

theorem scenarioContribution_eq_nil (env : PyEnv) (fields : PyVal) (n : Int) (s : PyVal)
    (h : scenarioSucceeded env fields n s = false) :
    scenarioContribution env fields n s = [] := by
  cases h1 : s.subscript "scenario_name" with
  | error e => simp [scenarioContribution, h1]
  | ok name =>
      cases h2 : s.subscript "description" with
      | error e => simp [scenarioContribution, h1, h2]
      | ok description =>
          cases h3 : s.subscript "test_type" with
          | error e => simp [scenarioContribution, h1, h2, h3]
          | ok ttype =>
              cases hb : scenarioBatch env fields n description name ttype with
              | ok tagged => simp [scenarioSucceeded, h1, h2, h3, hb] at h
              | error e => simp [scenarioContribution, h1, h2, h3, hb]

theorem scenarioContribution_tagged (env : PyEnv) (fields : PyVal) (n : Int) (s : PyVal) :
    ∀ r ∈ scenarioContribution env fields n s,
      rowLookup r "scenario_name" = (s.subscript "scenario_name").toOption ∧
      rowLookup r "test_type" = (s.subscript "test_type").toOption := by
  intro r hr
  cases h1 : s.subscript "scenario_name" with
  | error e => simp [scenarioContribution, h1] at hr
  | ok name =>
      cases h2 : s.subscript "description" with
      | error e => simp [scenarioContribution, h1, h2] at hr
      | ok description =>
          cases h3 : s.subscript "test_type" with
          | error e => simp [scenarioContribution, h1, h2, h3] at hr
          | ok ttype =>
              cases hb : scenarioBatch env fields n description name ttype with
              | error e => simp [scenarioContribution, h1, h2, h3, hb] at hr
              | ok tagged =>
                  simp only [scenarioContribution, h1, h2, h3, hb] at hr
                  obtain ⟨r0, htag⟩ :=
                    scenarioBatch_mem_tagRow env fields n description name ttype tagged hb r hr
                  obtain ⟨hl1, hl2⟩ := tagRow_lookups name ttype r0 r htag
                  simp [hl1, hl2, Except.toOption]

theorem contribution_length_bound (env : PyEnv) (fields : PyVal) (n : Int) :
    ∀ (scs : List PyVal) (m : Nat),
      (∀ s ∈ scs, (scenarioContribution env fields n s).length ≤ m) →
      (scs.flatMap (scenarioContribution env fields n)).length ≤
        m * scs.countP (fun s => scenarioSucceeded env fields n s) := by
  intro scs
  induction scs with
  | nil => intro m _; simp
  | cons s rest ih =>
      intro m h
      have hs := h s (List.mem_cons_self s rest)
      have hrest := ih m (fun x hx => h x (List.mem_cons_of_mem s hx))
      cases hsucc : scenarioSucceeded env fields n s with
      | true =>
          have hone : List.countP (fun x => scenarioSucceeded env fields n x) (s :: rest)
              = List.countP (fun x => scenarioSucceeded env fields n x) rest + 1 := by
            simp [List.countP_cons, hsucc]
          rw [List.flatMap_cons, List.length_append, hone, Nat.mul_add, Nat.mul_one]
          omega
      | false =>
          have hone : List.countP (fun x => scenarioSucceeded env fields n x) (s :: rest)
              = List.countP (fun x => scenarioSucceeded env fields n x) rest := by
            simp [List.countP_cons, hsucc]
          have hz := scenarioContribution_eq_nil env fields n s hsucc
          rw [List.flatMap_cons, List.length_append, hone, hz]
          simpa using hrest

/-- C5 (amended): when every scenario object carries the three required
keys, a failure of the guarded service call or of response parsing (or a
non-dict parsed row) skips exactly that scenario; the final dataset is
the concatenation, in plan order, of the successful scenarios' tagged
batches, every row carrying that scenario's `scenario_name` and
`test_type`; and whenever each successful scenario's parsed batch has at
most `m` rows (`m` = `rows_per_scenario` when the service honours the
request — the code itself takes whatever length the service returns),
the total row count is at most `m` times the number of successful
scenarios. -/
theorem c5_per_scenario_skip (env : PyEnv) (plan : PyVal) (n : Int)
    (scs : List PyVal) (fields : PyVal)
    (hfields : plan.getDefault "fields" (.list []) = .ok fields)
    (hscen : plan.subscript "scenarios" = .ok (.list scs))
    (hkeys : ∀ s ∈ scs, scenarioKeysOk s = true) :
    generate_data_for_plan env plan n =
      .ok (scs.flatMap (scenarioContribution env fields n)) ∧
    (∀ s ∈ scs, ∀ r ∈ scenarioContribution env fields n s,
      rowLookup r "scenario_name" = (s.subscript "scenario_name").toOption ∧
      rowLookup r "test_type" = (s.subscript "test_type").toOption) ∧
    (∀ m : Nat, (∀ s ∈ scs, (scenarioContribution env fields n s).length ≤ m) →
      (scs.flatMap (scenarioContribution env fields n)).length ≤
        m * scs.countP (fun s => scenarioSucceeded env fields n s)) := by
  refine ⟨?_, ?_, ?_⟩
  · unfold generate_data_for_plan
    simp only [hfields, hscen, PyVal.pyIter]
    simpa using planFold_ok env fields n scs hkeys []
  · intro s _ r hr
    exact scenarioContribution_tagged env fields n s r hr
  · intro m hm
    exact contribution_length_bound env fields n scs m hm

/-- A service whose one scenario request parses to TWO rows although one
row was requested. -/
def cEnv5 : PyEnv where
  gen := fun _ => .ok "irrelevant"
  jsonLoads := fun _ => .ok (.list [.dict [("a", .int 1)], .dict [("a", .int 2)]])

def cPlan5 : PyVal :=
  .dict [("fields", .list [.str "a"]), ("scenarios", .list [cGoodScenario])]

def cRow50 : PyVal :=
  .dict [("a", .int 1), ("scenario_name", .str "s1"), ("test_type", .str "positive")]

def cRow51 : PyVal :=
  .dict [("a", .int 2), ("scenario_name", .str "s1"), ("test_type", .str "positive")]

/-- C5 counterexample: with `rows_per_scenario = 1` and a single, fully
successful scenario whose response parses to two rows, the dataset has
2 rows, exceeding `rows_per_scenario × successful-scenarios = 1 × 1` —
the code never enforces the requested batch size, so the claim's
unconditional bound fails. -/
theorem c5_counterexample :
    generate_data_for_plan cEnv5 cPlan5 1 = .ok [cRow50, cRow51] ∧
    [cGoodScenario].countP
      (fun s => scenarioSucceeded cEnv5 (.list [.str "a"]) 1 s) = 1 ∧
    ¬ ((2 : Nat) ≤ 1 * 1) :=
  ⟨rfl, rfl, by decide⟩

theorem c5_witness :
    generate_data_for_plan cEnv5 cPlan5 1 =
      .ok ([cGoodScenario].flatMap (scenarioContribution cEnv5 (.list [.str "a"]) 1)) ∧
    (∀ s ∈ [cGoodScenario], ∀ r ∈ scenarioContribution cEnv5 (.list [.str "a"]) 1 s,
      rowLookup r "scenario_name" = (s.subscript "scenario_name").toOption ∧
      rowLookup r "test_type" = (s.subscript "test_type").toOption) ∧
    (∀ m : Nat,
      (∀ s ∈ [cGoodScenario],
        (scenarioContribution cEnv5 (.list [.str "a"]) 1 s).length ≤ m) →
      ([cGoodScenario].flatMap (scenarioContribution cEnv5 (.list [.str "a"]) 1)).length ≤
        m * [cGoodScenario].countP (fun s => scenarioSucceeded cEnv5 (.list [.str "a"]) 1 s)) :=
  c5_per_scenario_skip cEnv5 cPlan5 1 [cGoodScenario] (.list [.str "a"]) rfl rfl
    (by intro s hs; rw [List.mem_singleton] at hs; subst hs; rfl)

/-! ### Claim C8: the two export artifacts -/

/-- A row carries the two provenance keys. -/
def rowTagged (r : PyVal) : Prop :=
  "scenario_name" ∈ rowKeys r ∧ "test_type" ∈ rowKeys r

theorem tagRow_tagged (name ttype r r2 : PyVal) (h : tagRow name ttype r = .ok r2) :
    rowTagged r2 := by
  obtain ⟨h1, h2⟩ := tagRow_lookups name ttype r r2 h
  cases r2 with
  | dict kvs =>
      exact ⟨lookup_some_mem_keys _ _ kvs h1, lookup_some_mem_keys _ _ kvs h2⟩
  | null => simp [rowLookup] at h1
  | bool b => simp [rowLookup] at h1
  | int n => simp [rowLookup] at h1
  | str s => simp [rowLookup] at h1
  | list xs => simp [rowLookup] at h1

theorem scenarioStep_tagged (env : PyEnv) (fields : PyVal) (n : Int)
    (acc acc2 : List PyVal) (s : PyVal)
    (h : scenarioStep env fields n acc s = .ok acc2)
    (hacc : ∀ r ∈ acc, rowTagged r) : ∀ r ∈ acc2, rowTagged r := by
  cases h1 : s.subscript "scenario_name" with
  | error e => simp [scenarioStep, h1] at h
  | ok name =>
      cases h2 : s.subscript "description" with
      | error e => simp [scenarioStep, h1, h2] at h
      | ok description =>
          cases h3 : s.subscript "test_type" with
          | error e => simp [scenarioStep, h1, h2, h3] at h
          | ok ttype =>
              cases hb : scenarioBatch env fields n description name ttype with
              | error e =>
                  simp only [scenarioStep, h1, h2, h3, hb] at h
                  have : acc = acc2 := by simpa using h
                  subst this
                  exact hacc
              | ok tagged =>
                  simp only [scenarioStep, h1, h2, h3, hb] at h
                  have : acc ++ tagged = acc2 := by simpa using h
                  subst this
                  intro r hr
                  rcases List.mem_append.mp hr with hr | hr
                  · exact hacc r hr
                  · obtain ⟨r0, htag⟩ :=
                      scenarioBatch_mem_tagRow env fields n description name ttype tagged hb r hr
                    exact tagRow_tagged name ttype r0 r htag

theorem planFold_tagged (env : PyEnv) (fields : PyVal) (n : Int) :
    ∀ (scs acc rows : List PyVal), planFold env fields n acc scs = .ok rows →
      (∀ r ∈ acc, rowTagged r) → ∀ r ∈ rows, rowTagged r := by
  intro scs
  induction scs with
  | nil =>
      intro acc rows h hacc
      have : acc = rows := by simpa [planFold] using h
      subst this
      exact hacc
  | cons s rest ih =>
      intro acc rows h hacc
      cases hstep : scenarioStep env fields n acc s with
      | error e => simp [planFold, hstep] at h
      | ok acc2 =>
          simp only [planFold, hstep] at h
          exact ih acc2 rows h (scenarioStep_tagged env fields n acc acc2 s hstep hacc)

/-- Every row of a successfully generated plan dataset carries the two
provenance keys. -/
theorem generate_data_for_plan_tagged (env : PyEnv) (plan : PyVal) (n : Int)
    (rows : List PyVal) (h : generate_data_for_plan env plan n = .ok rows) :
    ∀ r ∈ rows, rowTagged r := by
  unfold generate_data_for_plan at h
  cases hf : plan.getDefault "fields" (.list []) with
  | error e => simp [hf] at h
  | ok fields =>
      simp only [hf] at h
      cases hs : plan.subscript "scenarios" with
      | error e => simp [hs] at h
      | ok sv =>
          simp only [hs] at h
          cases hi : sv.pyIter with
          | error e => simp [hi] at h
          | ok scenarios =>
              simp only [hi] at h
              exact planFold_tagged env fields n scenarios [] rows h (by simp)

theorem dfColumnsAux_mem (k : String) :
    ∀ (rows : List PyVal) (acc : List String),
      k ∈ dfColumnsAux acc rows ↔ k ∈ acc ∨ ∃ r ∈ rows, k ∈ rowKeys r := by
  intro rows
  induction rows with
  | nil => intro acc; simp [dfColumnsAux]
  | cons r rest ih =>
      intro acc
      rw [dfColumnsAux, ih]
      constructor
      · rintro (hk | hk)
        · rcases List.mem_append.mp hk with hk | hk
          · exact .inl hk
          · exact .inr ⟨r, List.mem_cons_self _ _, (List.mem_filter.mp hk).1⟩
        · obtain ⟨r0, hr0, hkk⟩ := hk
          exact .inr ⟨r0, List.mem_cons_of_mem _ hr0, hkk⟩
      · rintro (hk | ⟨r0, hr0, hkk⟩)
        · exact .inl (List.mem_append.mpr (.inl hk))
        · rcases List.mem_cons.mp hr0 with rfl | hr0
          · by_cases hin : k ∈ acc
            · exact .inl (List.mem_append.mpr (.inl hin))
            · refine .inl (List.mem_append.mpr (.inr ?_))
              exact List.mem_filter.mpr ⟨hkk, by simpa using hin⟩
          · exact .inr ⟨r0, hr0, hkk⟩

theorem dfColumns_mem (k : String) (rows : List PyVal) :
    k ∈ dfColumns rows ↔ ∃ r ∈ rows, k ∈ rowKeys r := by
  rw [dfColumns, dfColumnsAux_mem]
  simp

/-- C8: the full-report and data-only frames `main` derives from the one
plan dataset share the rows unchanged (hence identical row counts and
identical cell values in every shared column, since a cell is a function
of the row and the column label); the data-only frame's columns are
exactly the dataset's columns minus `scenario_name` and `test_type`
(both of which the dataset does contain); and the full report carries
all the dataset's columns with those two ordered first. -/
theorem c8_export_artifacts (env : PyEnv) (plan : PyVal) (n : Int)
    (rows : List PyVal) (hrows : generate_data_for_plan env plan n = .ok rows)
    (hne : rows ≠ []) :
    ∃ dfFull dataOnly,
      exportFrames (pdDataFrame rows) = .ok (dfFull, dataOnly) ∧
      dfFull.rows = rows ∧ dataOnly.rows = rows ∧
      dfFull.rows.length = dataOnly.rows.length ∧
      dataOnly.cols = (dfColumns rows).filter (fun c => !cols_to_move.contains c) ∧
      dfFull.cols = cols_to_move ++ dataOnly.cols ∧
      (∀ c, c ∈ dfFull.cols ↔ c ∈ dfColumns rows) ∧
      "scenario_name" ∈ dfColumns rows ∧ "test_type" ∈ dfColumns rows ∧
      "scenario_name" ∉ dataOnly.cols ∧ "test_type" ∉ dataOnly.cols := by
  have htag := generate_data_for_plan_tagged env plan n rows hrows
  obtain ⟨r0, hr0⟩ : ∃ r0, r0 ∈ rows := by
    cases rows with
    | nil => exact absurd rfl hne
    | cons a b => exact ⟨a, List.mem_cons_self a b⟩
  have htag0 := htag r0 hr0
  have hsn : "scenario_name" ∈ dfColumns rows :=
    (dfColumns_mem _ rows).mpr ⟨r0, hr0, htag0.1⟩
  have htt : "test_type" ∈ dfColumns rows :=
    (dfColumns_mem _ rows).mpr ⟨r0, hr0, htag0.2⟩
  have hselcond :
      ((cols_to_move ++ (dfColumns rows).filter (fun c => !cols_to_move.contains c)).all
        (fun c => (dfColumns rows).contains c)) = true := by
    rw [List.all_eq_true]
    intro c hc
    rcases List.mem_append.mp hc with hc | hc
    · rcases List.mem_cons.mp hc with rfl | hc
      · simpa using hsn
      · rcases List.mem_cons.mp hc with rfl | hc
        · simpa using htt
        · simp at hc
    · have := (List.mem_filter.mp hc).1
      simpa using this
  have hdropcond : (cols_to_move.all (fun c => (dfColumns rows).contains c)) = true := by
    rw [List.all_eq_true]
    intro c hc
    rcases List.mem_cons.mp hc with rfl | hc
    · simpa using hsn
    · rcases List.mem_cons.mp hc with rfl | hc
      · simpa using htt
      · simp at hc
  refine ⟨⟨cols_to_move ++ (dfColumns rows).filter (fun c => !cols_to_move.contains c), rows⟩,
          ⟨(dfColumns rows).filter (fun c => !cols_to_move.contains c), rows⟩,
          ?_, rfl, rfl, rfl, rfl, rfl, ?_, hsn, htt, ?_, ?_⟩
  · unfold exportFrames dfSelect dfDrop
    simp only [pdDataFrame, hselcond, hdropcond, if_pos]
  · intro c
    constructor
    · intro hc
      rcases List.mem_append.mp hc with hc | hc
      · rcases List.mem_cons.mp hc with rfl | hc
        · exact hsn
        · rcases List.mem_cons.mp hc with rfl | hc
          · exact htt
          · simp at hc
      · exact (List.mem_filter.mp hc).1
    · intro hc
      by_cases hin : c ∈ cols_to_move
      · exact List.mem_append.mpr (.inl hin)
      · refine List.mem_append.mpr (.inr (List.mem_filter.mpr ⟨hc, ?_⟩))
        simpa using hin
  · intro hc
    have := List.mem_filter.mp hc
    simp [cols_to_move] at this
  · intro hc
    have := List.mem_filter.mp hc
    simp [cols_to_move] at this

theorem c8_witness :
    ∃ dfFull dataOnly,
      exportFrames (pdDataFrame [cRow50, cRow51]) = .ok (dfFull, dataOnly) ∧
      dfFull.rows = [cRow50, cRow51] ∧ dataOnly.rows = [cRow50, cRow51] ∧
      dfFull.rows.length = dataOnly.rows.length ∧
      dataOnly.cols = (dfColumns [cRow50, cRow51]).filter (fun c => !cols_to_move.contains c) ∧
      dfFull.cols = cols_to_move ++ dataOnly.cols ∧
      (∀ c, c ∈ dfFull.cols ↔ c ∈ dfColumns [cRow50, cRow51]) ∧
      "scenario_name" ∈ dfColumns [cRow50, cRow51] ∧
      "test_type" ∈ dfColumns [cRow50, cRow51] ∧
      "scenario_name" ∉ dataOnly.cols ∧ "test_type" ∉ dataOnly.cols :=
  c8_export_artifacts cEnv5 cPlan5 1 [cRow50, cRow51] rfl (by simp)

/-! ### Claim C9: field-set consistency and padding -/

/-- C9 (amended): the schema-driven generator needs no padding — every
record it hands to export has exactly the same key list (the schema's
fields; a missing generator contributes the sentinel VALUE, not a
missing key) — while the plan-driven pipeline does not pad missing keys
with a sentinel at all: a record lacking a key that other records have
is shown as a null/NaN cell by the tabular export. -/
theorem c9_padding_policy :
    (∀ (fenv : FakerEnv) (schema : Schema) (N : Nat) (t : String)
       (rows : List (List (String × Value))),
      generate_data fenv schema N t = .ok rows →
      ∀ r ∈ rows, ∀ r2 ∈ rows, r.map Prod.fst = r2.map Prod.fst) ∧
    (∀ (env : PyEnv) (plan : PyVal) (n : Int) (rows : List PyVal),
      generate_data_for_plan env plan n = .ok rows →
      ∀ r ∈ rows, ∀ k : String, rowLookup r k = none → dfCell r k = Cell.nan) := by
  constructor
  · intro fenv schema N t rows hrows r hr r2 hr2
    obtain ⟨i, hi⟩ := genRows_mem_of_ok fenv schema.fields t N 0 rows hrows r hr
    obtain ⟨i2, hi2⟩ := genRows_mem_of_ok fenv schema.fields t N 0 rows hrows r2 hr2
    rw [genFields_keys_of_ok fenv t i schema.fields 0 r hi,
        genFields_keys_of_ok fenv t i2 schema.fields 0 r2 hi2]
  · intro env plan n rows _ r _ k hk
    simp [dfCell, hk]

/-- A service whose single scenario parses to two rows with different
key sets: the first row lacks the key `"b"` that the second row has. -/
def cEnv9 : PyEnv where
  gen := fun _ => .ok "irrelevant"
  jsonLoads := fun _ =>
    .ok (.list [.dict [("a", .int 1)], .dict [("a", .int 2), ("b", .int 3)]])

def cRow91 : PyVal :=
  .dict [("a", .int 2), ("b", .int 3),
         ("scenario_name", .str "s1"), ("test_type", .str "positive")]

/-- C9 counterexample: in the plan pipeline a record lacking a key that
another record has keeps the key absent; the exported table shows a NaN
placeholder there — in particular not a (string) sentinel value — so the
claimed sentinel padding does not happen. -/
theorem c9_counterexample :
    generate_data_for_plan cEnv9 cPlan5 2 = .ok [cRow50, cRow91] ∧
    "b" ∈ dfColumns [cRow50, cRow91] ∧
    rowLookup cRow50 "b" = none ∧
    dfCell cRow50 "b" = Cell.nan ∧
    ∀ s : String, dfCell cRow50 "b" ≠ Cell.val (.str s) :=
  ⟨rfl, by decide, rfl, rfl, fun s h => Cell.noConfusion h⟩

theorem c9_witness :
    cRecordPositive.map Prod.fst = cRecordPositive.map Prod.fst ∧
    dfCell cRow50 "b" = Cell.nan :=
  ⟨c9_padding_policy.1 cFakerEnv cSchema 2 "positive" cRowsPositive rfl
      cRecordPositive (List.mem_cons_self _ _)
      cRecordPositive (List.mem_cons_of_mem _ (List.mem_cons_self _ _)),
   c9_padding_policy.2 cEnv9 cPlan5 2 [cRow50, cRow91] rfl cRow50
      (List.mem_cons_self _ _) "b" rfl⟩
